/-
Verification of the MCP gateway server (src/gateway/src/mcp_gateway/server.py).

The gateway supervises child server processes, speaks newline-delimited
JSON-RPC 2.0 with each over stdin/stdout, aggregates the children's tool
catalogs, and exposes list/call operations through one HTTP endpoint.

This file shallowly embeds the gateway's pure decision logic:
  * `Json` models the Python values produced by `json.loads` (ints only for
    numbers; the gateway never manipulates floats).
  * `Line` models what one `readline()` on a child's stdout yields, together
    with the result of `json.loads` on it: end of stream, an unparsable line
    (carrying the raw text and the decoder's message), or a parsed JSON
    object (protocol responses are objects, per the wire protocol).
  * A child's reply behavior and spawn outcomes are environment parameters
    (functions supplied to the model), since they live outside the gateway.
All effects of the Python code are made explicit: functions return the list
of requests written to child stdin pipes alongside their result, and Python
exceptions become `Except` errors.
-/
import Mathlib

set_option autoImplicit false

namespace MCPGateway

/-- JSON values as Python's `json.loads` produces them (numbers restricted to
integers: the gateway only ever builds integer ids and the claims involve no
floats). Objects are ordered key/value lists, mirroring Python's
insertion-ordered `dict`. -/
inductive Json where
  | null : Json
  | bool (b : Bool) : Json
  | num (n : Int) : Json
  | str (s : String) : Json
  | arr (elems : List Json) : Json
  | obj (fields : List (String × Json)) : Json
  deriving Repr

mutual

/-- Structural equality of JSON values, modelling Python `==` on the values
`json.loads` yields (dict comparison in Python ignores insertion order, but
the gateway only ever compares strings and whole response payloads built in
one place, where order coincides). -/
def Json.beq : Json → Json → Bool
  | .null, .null => true
  | .bool a, .bool b => a == b
  | .num a, .num b => a == b
  | .str a, .str b => a == b
  | .arr xs, .arr ys => Json.beqList xs ys
  | .obj fs, .obj gs => Json.beqFields fs gs
  | _, _ => false

/-- Elementwise `Json.beq` on lists. -/
def Json.beqList : List Json → List Json → Bool
  | [], [] => true
  | x :: xs, y :: ys => Json.beq x y && Json.beqList xs ys
  | _, _ => false

/-- Pairwise `Json.beq` on key/value field lists. -/
def Json.beqFields : List (String × Json) → List (String × Json) → Bool
  | [], [] => true
  | (k, v) :: fs, (l, w) :: gs => k == l && Json.beq v w && Json.beqFields fs gs
  | _, _ => false

end

instance : BEq Json := ⟨Json.beq⟩

namespace Json

/-- Python `d[k]` / `k in d` support: look a key up in an object's field list
(first occurrence; `json.loads` keeps the last duplicate, but the gateway
never constructs duplicate keys). Non-objects have no keys. -/
def lookup : Json → String → Option Json
  | .obj fields, k => fields.lookup k
  | _, _ => none

/-- Python truthiness (`if not x:`) of a JSON-decoded value: `None`, `False`,
`0`, `""`, `[]` and an empty dict are falsy. -/
def pyTruthy : Json → Bool
  | .null => false
  | .bool b => b
  | .num n => n != 0
  | .str s => s != ""
  | .arr elems => !elems.isEmpty
  | .obj fields => !fields.isEmpty

end Json

mutual

/-- Python `repr` of a JSON-decoded value (used by `str` on containers). -/
def Json.pyRepr : Json → String
  | .null => "None"
  | .bool true => "True"
  | .bool false => "False"
  | .num n => toString n
  | .str s => "\x27" ++ s ++ "\x27"
  | .arr elems => "[" ++ Json.pyReprList elems ++ "]"
  | .obj fields => "\x7b" ++ Json.pyReprFields fields ++ "\x7d"

/-- Comma-separated `repr`s of list elements. -/
def Json.pyReprList : List Json → String
  | [] => ""
  | [x] => Json.pyRepr x
  | x :: xs => Json.pyRepr x ++ ", " ++ Json.pyReprList xs

/-- Comma-separated `repr`s of dict entries. -/
def Json.pyReprFields : List (String × Json) → String
  | [] => ""
  | [(k, v)] => "\x27" ++ k ++ "\x27: " ++ Json.pyRepr v
  | (k, v) :: fs => "\x27" ++ k ++ "\x27: " ++ Json.pyRepr v ++ ", " ++ Json.pyReprFields fs

end

/-- Python `str` of a JSON-decoded value (as f-strings and `str(e)` apply it):
bare text for strings, `repr` otherwise. -/
def Json.pyStr : Json → String
  | .str s => s
  | v => v.pyRepr

/-! ## RPC link (`Gateway._communicate_with_server`)

`_communicate_with_server` serializes one JSON-RPC request as a line on the
child's stdin, then reads exactly one line from the child's stdout and
classifies it. The child's behavior — what one `readline()` produces for a
given written request, combined with `json.loads` on that text — is an
environment parameter of type `Json → Line`. -/

/-- What one `readline()` on a child's stdout yields for a request, combined
with the result of `json.loads` on the decoded text: end of stream (empty
read), a line that is not valid JSON (carrying the raw text and the message
of the `json.JSONDecodeError` the Python decoder raises for it), or a parsed
JSON object (the wire protocol's response shape; responses are objects). -/
inductive Line where
  | eof : Line
  | unparsable (raw : String) (decodeErrMsg : String) : Line
  | obj (fields : List (String × Json)) : Line
  deriving Repr

/-- The ways one RPC exchange fails, mirroring the `raise` sites of
`_communicate_with_server` top to bottom: the pipe-availability guard, the
empty read, the JSON decode error, and a response carrying an `error` field.
The spec names these PipesUnavailable / LinkClosed / ProtocolError /
RemoteError. -/
inductive RpcError where
  | pipesUnavailable : RpcError
  | linkClosed : RpcError
  | protocolError (raw : String) (decodeErrMsg : String) : RpcError
  | remoteError (payload : Json) : RpcError
  deriving Repr

/-- One registered backend as `call_tool`/`list_all_tools` see it: the
`MCPServer` dataclass's `name` and discovered `tools` (a list of tool
objects), plus the process-side environment: whether `process.stdin` and
`process.stdout` are available, and the child's reply behavior per written
request. -/
structure MCPServer where
  name : String
  tools : List Json
  pipesOk : Bool
  reply : Json → Line

/-- The request object `_communicate_with_server` builds and serializes:
jsonrpc "2.0", the method, the params, and the fixed id 1. -/
def mkRequest (method : String) (params : Json) : Json :=
  .obj [("jsonrpc", .str "2.0"), ("method", .str method),
        ("params", params), ("id", .num 1)]

/-- Python `params or {}` on the optional `params` argument (`None` default):
an absent or falsy params value becomes the empty object. -/
def paramsOrEmpty : Option Json → Json
  | none => .obj []
  | some p => if p.pyTruthy then p else .obj []

/-- Classification of the one response line, following
`_communicate_with_server` after the write: an empty read raises (LinkClosed);
an unparsable line raises the decode error (ProtocolError, which carries the
raw line in its `doc` field); a response object containing an `error` key
raises that payload (RemoteError); otherwise the `result` field is returned,
`None` when absent. -/
def handleResponse : Line → Except RpcError Json
  | .eof => .error .linkClosed
  | .unparsable raw msg => .error (.protocolError raw msg)
  | .obj fields =>
    match fields.lookup "error" with
    | some payload => .error (.remoteError payload)
    | none => .ok ((fields.lookup "result").getD .null)

/-- One full `_communicate_with_server` exchange. Returns the list of
requests written to the child's stdin (empty or a singleton, tagged with the
server's name) together with the outcome. The guard on missing pipes raises
before anything is written. -/
def communicate (s : MCPServer) (method : String) (params? : Option Json) :
    List (String × Json) × Except RpcError Json :=
  if s.pipesOk then
    let req := mkRequest method (paramsOrEmpty params?)
    ([(s.name, req)], handleResponse (s.reply req))
  else
    ([], .error .pipesUnavailable)

/-! ## Routing (`Gateway.call_tool`) -/

/-- The membership test of `call_tool`'s loop:
`any(t["name"] == tool_name for t in server.tools)`. The tool name passed in
is a decoded JSON value (the endpoint hands over `params.get("name")`
verbatim), so the comparison is Python `==` on decoded values. -/
def serverHasTool (toolName : Json) (s : MCPServer) : Bool :=
  s.tools.any fun t => t.lookup "name" == some toolName

/-- Failures of `call_tool`: the final `ValueError(f"Tool ... not found")`
(ToolNotFound) or a propagated `_communicate_with_server` exception
(re-raised unchanged after logging). -/
inductive CallError where
  | toolNotFound (toolName : Json) : CallError
  | rpc (e : RpcError) : CallError
  deriving Repr

/-- Model of `Gateway.call_tool`: scan the registry in registration order (Python
dicts iterate in insertion order); on the first server whose tool list
contains the name, perform one `tools/call` exchange with params made of the
name and arguments, returning its result or propagating its failure; if no
server matches, raise ToolNotFound. Returns the accumulated stdin writes
alongside the outcome. -/
def callTool (servers : List MCPServer) (toolName arguments : Json) :
    List (String × Json) × Except CallError Json :=
  match servers with
  | [] => ([], .error (.toolNotFound toolName))
  | s :: rest =>
    if serverHasTool toolName s then
      let out := communicate s "tools/call"
        (some (.obj [("name", toolName), ("arguments", arguments)]))
      (out.1, out.2.mapError .rpc)
    else
      callTool rest toolName arguments

/-! ## Aggregation (`Gateway.list_all_tools`) -/

/-- One entry of `list_all_tools`'s output for a tool record of one server:
the tool's `name` (a `KeyError`, modelled as `Except.error`, if the record
lacks one — Python `str(KeyError("name"))` is the quoted key), its
`description` defaulting to the empty string, the owning server's name, and
the `input_schema` field exactly when the record has one. -/
def toolEntry (serverName : String) (t : Json) : Except String Json :=
  match t.lookup "name" with
  | none => .error "\x27name\x27"
  | some n =>
    let base := [("name", n),
                 ("description", (t.lookup "description").getD (.str "")),
                 ("server", .str serverName)]
    .ok (.obj (match t.lookup "input_schema" with
               | some schema => base ++ [("input_schema", schema)]
               | none => base))

/-- Model of `Gateway.list_all_tools`: iterate the registry in registration order and,
within each server, its tool list in order, emitting one entry per tool
record; the first tool record without a `name` key raises. -/
def listAllTools (servers : List MCPServer) : Except String (List Json) :=
  (servers.flatMap fun s => s.tools.map fun t => (s.name, t)).mapM
    fun p => toolEntry p.1 p.2

/-- Written from the spec's words, for the refinement statement of the
aggregate catalog: one entry per tool of each registered server, carrying the
tool's name, its description (empty when missing), the owning server's name
as the `server` annotation, and the input schema when present. Total —
unlike the code's `toolEntry` it cannot raise; the two agree on tool records
that have a `name` key. -/
def specToolEntry (serverName : String) (t : Json) : Json :=
  .obj ([("name", (t.lookup "name").getD .null),
         ("description", (t.lookup "description").getD (.str "")),
         ("server", .str serverName)] ++
        (match t.lookup "input_schema" with
         | some schema => [("input_schema", schema)]
         | none => []))

/-! ## Startup (`Gateway.start_all_servers`, `Gateway.start_server`) -/

/-- The `MCPServerConfig` dataclass: `command` and `args`. Python dataclasses
do not check field types at construction, so both hold arbitrary decoded
values. -/
structure MCPServerConfig where
  command : Json
  args : Json
  deriving Repr

/-- A failure of one `start_server` attempt (e.g. `create_subprocess_shell`
raising); its content is environment-supplied. -/
structure SpawnError where
  msg : String
  deriving Repr

/-- Python `MCPServerConfig(**server_config)`: succeeds exactly when the entry is an
object whose keys are precisely `command` and `args` (both required, no
extras — anything else raises `TypeError`); values are not checked. -/
def parseServerConfig : Json → Except Unit MCPServerConfig
  | .obj fs =>
    match fs.lookup "command", fs.lookup "args" with
    | some c, some a =>
      if fs.all (fun p => p.1 == "command" || p.1 == "args") then .ok ⟨c, a⟩
      else .error ()
    | _, _ => .error ()
  | _ => .error ()

/-- Model of `asyncio.gather(*tasks, return_exceptions=...)` over already-determined
per-task outcomes: with `return_exceptions` true every outcome — exception or
value — is collected in task order; with it false the first exception
propagates instead. `start_all_servers` passes true. -/
def asyncioGather (returnExceptions : Bool)
    (results : List (Except SpawnError MCPServer)) :
    Except SpawnError (List (Except SpawnError MCPServer)) :=
  if returnExceptions then .ok results
  else
    match results.findSome?
        (fun r => match r with | .error e => some e | .ok _ => none) with
    | some e => .error e
    | none => .ok results

/-- How `start_all_servers` fails before gathering: an `AttributeError` from
`.get`/`.items` on a non-dict (badConfig), the explicit
`ValueError("No MCP servers configured in config file")` (configError), a
`TypeError` from `MCPServerConfig(**entry)` (badEntry), or a spawn exception
escaping the gather (impossible with `return_exceptions=True`, but the outer
`except ... raise` would re-raise it). -/
inductive StartupError where
  | badConfig : StartupError
  | configError : StartupError
  | badEntry : StartupError
  | spawnAborted (e : SpawnError) : StartupError
  deriving Repr

/-- Model of `Gateway.start_all_servers` on an already-parsed config document, with
each server's spawn outcome supplied by the environment `spawn`: reject a
missing or empty (falsy) `config["mcp"]["servers"]` mapping with the
ValueError; otherwise build every entry's `MCPServerConfig`, start all
spawn attempts, and gather their outcomes with `return_exceptions=True`, so
each failure is captured in its slot instead of aborting the batch. (In the
source an unbuildable entry raises after earlier tasks were already created;
the model parses entries first, which settles the same claims.) -/
def startAllServers (config : Json)
    (spawn : String → MCPServerConfig → Except SpawnError MCPServer) :
    Except StartupError (List (Except SpawnError MCPServer)) :=
  match config with
  | .obj cfields =>
    match (cfields.lookup "mcp").getD (.obj []) with
    | .obj mfields =>
      let mapping := (mfields.lookup "servers").getD .null
      if !mapping.pyTruthy then .error .configError
      else
        match mapping with
        | .obj entries =>
          match entries.mapM
              (fun p => (parseServerConfig p.2).map fun c => (p.1, c)) with
          | .error _ => .error .badEntry
          | .ok parsed =>
            (asyncioGather true (parsed.map fun p => spawn p.1 p.2)).mapError
              .spawnAborted
        | _ => .error .badConfig
    | _ => .error .badConfig
  | _ => .error .badConfig

/-- Python dict assignment `self.servers[name] = server` on an
insertion-ordered registry: replace in place if the name is present, append
otherwise. -/
def registryInsert : List MCPServer → MCPServer → List MCPServer
  | [], s => [s]
  | x :: rest, s => if x.name == s.name then s :: rest else x :: registryInsert rest s

/-- Registry lookup by server name. -/
def serverNamed (servers : List MCPServer) (n : String) : Option MCPServer :=
  servers.find? fun s => s.name == n

/-- Value of `server.tools` after `start_server`'s capability query. The whole block —
the query, `result.get("tools", [])`, and the log line's comprehension
`[t["name"] for t in server.tools]` — sits in one `try` whose handler resets
`server.tools = []`. So the tools survive exactly when the query succeeded,
its result is an object, and its `tools` field is absent (default `[]`) or is
an array whose every element has a `name` key; every other shape raises
inside the `try` (`AttributeError`/`TypeError`/`KeyError`) and degrades to
the empty list. -/
def toolsOfQuery : Except RpcError Json → List Json
  | .error _ => []
  | .ok r =>
    match r with
    | .obj fs =>
      match fs.lookup "tools" with
      | some (.arr ts) =>
        if ts.all (fun t => (t.lookup "name").isSome) then ts else []
      | some _ => []
      | none => []
    | _ => []

/-- The tail of `Gateway.start_server` after a successful spawn: issue the
`tools/list` capability query on the fresh server (whose tool list starts
empty), degrade any failure to an empty tool list via `toolsOfQuery`, then
register the server under its name and return it. The function is total: no
query failure propagates to `start_server`'s caller. -/
def startServerRegister (registry : List MCPServer) (name : String)
    (pipesOk : Bool) (reply : Json → Line) : List MCPServer × MCPServer :=
  let s0 : MCPServer := ⟨name, [], pipesOk, reply⟩
  let query := (communicate s0 "tools/list" none).2
  let s : MCPServer := { s0 with tools := toolsOfQuery query }
  (registryInsert registry s, s)

/-! ## Shutdown (`Gateway.shutdown`)

`shutdown` loops over the registry and, per child, runs
`os.killpg(os.getpgid(pid), SIGTERM)` then `await server.process.wait()`
inside a `try` whose handler attempts `os.killpg(..., SIGKILL)` and swallows
its failure; afterwards it clears the registry. A child's reaction is the
environment: whether each `killpg`/`getpgid` call raises, whether `wait()`
raises, and whether the child exits on SIGTERM at all. `wait()` carries no
timeout in the source, so a child that neither errors nor exits leaves the
loop suspended forever — modelled as `none`. -/

/-- Environment of one child during shutdown. -/
structure ChildBehavior where
  sigtermRaises : Bool
  waitRaises : Bool
  exitsOnTerm : Bool
  sigkillRaises : Bool
  deriving Repr

/-- A signal actually delivered to a child's process group. -/
inductive Sig where
  | term : Sig
  | kill : Sig
  deriving Repr

/-- One iteration of `shutdown`'s loop for one child: the list of signals
delivered to its process group, or `none` when the iteration never returns
(SIGTERM delivered, `wait()` neither raises nor completes). -/
def terminateChild (b : ChildBehavior) : Option (List Sig) :=
  if b.sigtermRaises then
    some (if b.sigkillRaises then [] else [.kill])
  else if b.waitRaises then
    some (.term :: if b.sigkillRaises then [] else [.kill])
  else if b.exitsOnTerm then
    some [.term]
  else
    none

/-- Model of `Gateway.shutdown` over the registry (children paired with their
behaviors): iterate in order, never aborting on a child whose termination
errored, and finish with `self.servers.clear()`; `none` when some child's
`wait()` hangs, in which case the clear is never reached. Returns the
delivered signals tagged by child name and the final registry. -/
def shutdownServers :
    List (String × ChildBehavior) →
    Option (List (String × Sig) × List (String × ChildBehavior))
  | [] => some ([], [])
  | (n, b) :: rest =>
    match terminateChild b with
    | none => none
    | some sigs =>
      match shutdownServers rest with
      | none => none
      | some (acts, _) => some (sigs.map (fun g => (n, g)) ++ acts, [])

/-! ## Interleaved exchanges on one link

`_communicate_with_server` takes no lock: between its awaited
`stdin.drain()` and `stdout.readline()` the event loop is free to run
another request's coroutine against the same pipes. Two concurrent
`call_tool` requests routed to the same child each execute the two
suspension steps write-request / read-one-line, in that per-task order but
in any interleaving chosen by the scheduler. The child consumes stdin lines
in order and emits one response line per request in that same order, so the
stdout buffer holds the responses to the written requests FIFO, and each
`readline()` removes the front line — whichever task's read runs first gets
it. -/

/-- The two concurrently running exchange coroutines. -/
inductive TaskId where
  | A : TaskId
  | B : TaskId
  deriving Repr

/-- Scheduler-visible state of two in-flight exchanges on one link: the
child's pending response lines (FIFO), each task's progress (0: about to
write, 1: wrote and about to read, 2: done) and each task's returned line. -/
structure ExchangeState where
  buffer : List Json
  pcA : Nat
  pcB : Nat
  resA : Option Json
  resB : Option Json
  deriving Repr

/-- Both exchanges about to write, nothing buffered. -/
def initExchange : ExchangeState := ⟨[], 0, 0, none, none⟩

/-- Run one scheduler step of the chosen task: its pending write appends the
child's response to that request at the back of the stdout buffer; its
pending `readline()` takes the front buffered line as "the" response (or
blocks — a no-op step — when none is buffered); a finished task idles. -/
def stepTask (child : Json → Json) (reqA reqB : Json) (s : ExchangeState) :
    TaskId → ExchangeState
  | .A =>
    match s.pcA with
    | 0 => { s with buffer := s.buffer ++ [child reqA], pcA := 1 }
    | 1 =>
      match s.buffer with
      | r :: rest => { s with buffer := rest, resA := some r, pcA := 2 }
      | [] => s
    | _ => s
  | .B =>
    match s.pcB with
    | 0 => { s with buffer := s.buffer ++ [child reqB], pcB := 1 }
    | 1 =>
      match s.buffer with
      | r :: rest => { s with buffer := rest, resB := some r, pcB := 2 }
      | [] => s
    | _ => s

/-- Run two unlocked exchanges under a scheduler's interleaving. -/
def runExchanges (child : Json → Json) (reqA reqB : Json)
    (sched : List TaskId) : ExchangeState :=
  sched.foldl (stepTask child reqA reqB) initExchange

/-! ## HTTP front door (`message_endpoint`) -/

/-- Python `str(e)` for each RPC exchange failure, as the endpoint's
catch-all interpolates it: the guard's `Exception("Server process pipes not
available")`, the empty read's `Exception("Empty response")`, the
`json.JSONDecodeError`'s own message, and `str` of the backend-supplied
error payload for `Exception(response["error"])`. -/
def RpcError.pyMessage : RpcError → String
  | .pipesUnavailable => "Server process pipes not available"
  | .linkClosed => "Empty response"
  | .protocolError _ msg => msg
  | .remoteError payload => payload.pyStr

/-- Python `str(e)` for a `call_tool` failure: the
`ValueError(f"Tool ... not found")` text, or the propagated exchange
failure's message. -/
def CallError.pyMessage : CallError → String
  | .toolNotFound n => "Tool " ++ n.pyStr ++ " not found"
  | .rpc e => e.pyMessage

/-- Model of `message_endpoint` on one POST body, returning HTTP status and JSON
body. The input is the outcome of `await request.json()`: the parse
failure's message, or the decoded body's fields (the endpoint calls `.get`
on it, so a body is an object; a `params` field, when present, is likewise
an object — any other shape raises an `AttributeError` that the same
catch-all turns into a 500). Dispatch follows the source: `tools/list`
returns the aggregate catalog, `tools/call` extracts `params.name` and
`params.arguments` (defaulting absent params to an empty object) and
forwards to `call_tool`, any other method is answered 400 with
"Unknown method", and every exception — including ToolNotFound — is caught
by the one handler returning 500 with the exception's message. -/
def messageEndpoint (servers : List MCPServer)
    (body : Except String (List (String × Json))) : Nat × Json :=
  match body with
  | .error msg => (500, .obj [("error", .str msg)])
  | .ok msgFields =>
    match msgFields.lookup "method" with
    | some (.str "tools/list") =>
      match listAllTools servers with
      | .ok tools => (200, .obj [("tools", .arr tools)])
      | .error m => (500, .obj [("error", .str m)])
    | some (.str "tools/call") =>
      let params := (msgFields.lookup "params").getD (.obj [])
      let nameVal := (params.lookup "name").getD .null
      let args := (params.lookup "arguments").getD (.obj [])
      match (callTool servers nameVal args).2 with
      | .ok result => (200, result)
      | .error e => (500, .obj [("error", .str e.pyMessage)])
    | _ => (400, .obj [("error", .str "Unknown method")])

/-- An HTTP client-error status, as the claims use the term. -/
def isClientError (status : Nat) : Prop := 400 ≤ status ∧ status < 500

instance (status : Nat) : Decidable (isClientError status) := by
  unfold isClientError; infer_instance

/-! ## Concrete fixtures for witnesses and counterexamples -/

/-- A tool record advertising the name `echo`. -/
def echoTool : Json := .obj [("name", .str "echo"), ("description", .str "echo back")]

/-- A tool record advertising the name `ping`, without a description. -/
def pingTool : Json := .obj [("name", .str "ping")]

/-- A healthy registered backend named `alpha` owning `echo`; its child
echoes each request's params back as the result. -/
def alphaServer : MCPServer :=
  ⟨"alpha", [echoTool], true,
   fun req => .obj [("jsonrpc", .str "2.0"), ("id", .num 1),
                    ("result", (req.lookup "params").getD .null)]⟩

/-- A healthy registered backend named `beta` owning only `ping`. -/
def betaServer : MCPServer :=
  ⟨"beta", [pingTool], true, fun _ => .obj [("result", .str "pong")]⟩

/-- A second backend also advertising `echo`, registered after `alpha`. -/
def gammaEchoServer : MCPServer :=
  ⟨"gamma", [echoTool], true, fun _ => .obj [("result", .str "from gamma")]⟩

/-- A child whose stdout closes before any response line. -/
def closedServer : MCPServer := ⟨"closed", [pingTool], true, fun _ => .eof⟩

/-- Child behavior for the interleaving scenario: replies to each request
with that request's own params as the result, so distinct requests receive
distinct, identifiable replies. -/
def interleaveChild : Json → Json :=
  fun req => .obj [("result", (req.lookup "params").getD .null)]

/-- First concurrent `tools/call` request (argument x = 1). -/
def interleaveReqA : Json :=
  mkRequest "tools/call" (.obj [("name", .str "t"), ("arguments", .obj [("x", .num 1)])])

/-- Second concurrent `tools/call` request (argument x = 2). -/
def interleaveReqB : Json :=
  mkRequest "tools/call" (.obj [("name", .str "t"), ("arguments", .obj [("x", .num 2)])])

/-- A child that ignores SIGTERM: signalling raises nothing, `wait()` neither
raises nor returns. -/
def stubbornChild : ChildBehavior := ⟨false, false, false, false⟩

/-- A spawn environment in which every `start_server` attempt raises. -/
def failingSpawn : String → MCPServerConfig → Except SpawnError MCPServer :=
  fun n _ => .error ⟨n ++ " failed"⟩

/-- A parsed config document whose `mcp.servers` mapping is empty. -/
def emptyServersConfig : Json := .obj [("mcp", .obj [("servers", .obj [])])]

/-- A parsed config document with one configured server `a`. -/
def oneServerConfig : Json :=
  .obj [("mcp", .obj [("servers",
    .obj [("a", .obj [("command", .str "stub-server"), ("args", .arr [])])])])]

/-! ## Helper lemmas -/

/-- When no registered server's tool list contains the name, `call_tool`
falls through its loop to the final ValueError without any exchange. -/
theorem callTool_eq_of_nomatch (servers : List MCPServer) (toolName arguments : Json)
    (h : ∀ s ∈ servers, serverHasTool toolName s = false) :
    callTool servers toolName arguments = ([], .error (.toolNotFound toolName)) := by
  induction servers with
  | nil => rfl
  | cons s rest ih =>
    have hs : serverHasTool toolName s = false := h s (by simp)
    simp only [callTool, hs, Bool.false_eq_true, if_false]
    exact ih fun s' hs' => h s' (by simp [hs'])

/-- The first server in registration order whose tool list contains the name
receives the one `tools/call` exchange; everything earlier is skipped. -/
theorem callTool_eq_of_first_match (pre post : List MCPServer) (owner : MCPServer)
    (toolName arguments : Json)
    (hpre : ∀ s ∈ pre, serverHasTool toolName s = false)
    (howner : serverHasTool toolName owner = true) :
    callTool (pre ++ owner :: post) toolName arguments
      = (((communicate owner "tools/call"
            (some (.obj [("name", toolName), ("arguments", arguments)]))).1,
         (communicate owner "tools/call"
            (some (.obj [("name", toolName), ("arguments", arguments)]))).2.mapError
           CallError.rpc)) := by
  induction pre with
  | nil => simp only [List.nil_append, callTool, howner, if_true]
  | cons s rest ih =>
    have hs : serverHasTool toolName s = false := hpre s (by simp)
    simp only [List.cons_append, callTool, hs, Bool.false_eq_true, if_false]
    exact ih fun s' hs' => hpre s' (by simp [hs'])

/-! ## Claim theorems -/

/-- C1: for a registry in which the tool name occurs in exactly one server's
tool list (and that server's pipes are available), `call_tool` writes exactly
one `tools/call` request — carrying the name and the arguments as its params
— to the owning server's link, returns that server's response's `result`
field unchanged on success, and propagates the exchange's failure to the
caller unchanged, with the single write showing there is no retry. -/
theorem callTool_routes_to_unique_owner (pre post : List MCPServer)
    (owner : MCPServer) (toolName arguments : Json)
    (hpre : ∀ s ∈ pre, serverHasTool toolName s = false)
    (howner : serverHasTool toolName owner = true)
    (hpost : ∀ s ∈ post, serverHasTool toolName s = false)
    (hpipes : owner.pipesOk = true) :
    (callTool (pre ++ owner :: post) toolName arguments).1
      = [(owner.name,
          mkRequest "tools/call" (.obj [("name", toolName), ("arguments", arguments)]))] ∧
    (∀ r, handleResponse (owner.reply (mkRequest "tools/call"
            (.obj [("name", toolName), ("arguments", arguments)]))) = .ok r →
       (callTool (pre ++ owner :: post) toolName arguments).2 = .ok r) ∧
    (∀ e, handleResponse (owner.reply (mkRequest "tools/call"
            (.obj [("name", toolName), ("arguments", arguments)]))) = .error e →
       (callTool (pre ++ owner :: post) toolName arguments).2 = .error (.rpc e)) := by
  have hmain := callTool_eq_of_first_match pre post owner toolName arguments hpre howner
  have hcomm : communicate owner "tools/call"
      (some (.obj [("name", toolName), ("arguments", arguments)]))
      = ([(owner.name,
           mkRequest "tools/call" (.obj [("name", toolName), ("arguments", arguments)]))],
         handleResponse (owner.reply (mkRequest "tools/call"
           (.obj [("name", toolName), ("arguments", arguments)])))) := by
    simp [communicate, hpipes, paramsOrEmpty, Json.pyTruthy]
  refine ⟨?_, ?_, ?_⟩
  · rw [hmain, hcomm]
  · intro r hr
    rw [hmain, hcomm]
    simp [Except.mapError, hr]
  · intro e he
    rw [hmain, hcomm]
    simp [Except.mapError, he]

/-- C1 witness: in the registry alpha-then-beta, only alpha owns `echo`; the
call writes exactly alpha's request and returns the echoed params, which is
the stub's `result` field. -/
theorem callTool_routes_to_unique_owner_witness :
    (callTool ([] ++ alphaServer :: [betaServer]) (.str "echo") (.obj [("x", .num 1)])).1
      = [("alpha", mkRequest "tools/call"
            (.obj [("name", .str "echo"), ("arguments", .obj [("x", .num 1)])]))] ∧
    (callTool ([] ++ alphaServer :: [betaServer]) (.str "echo") (.obj [("x", .num 1)])).2
      = .ok (.obj [("name", .str "echo"), ("arguments", .obj [("x", .num 1)])]) := by
  have h := callTool_routes_to_unique_owner [] [betaServer] alphaServer
    (.str "echo") (.obj [("x", .num 1)])
    (by intro s hs; simp at hs)
    (by rfl)
    (by intro s hs; simp at hs; subst hs; rfl)
    rfl
  exact ⟨h.1, h.2.1 _ rfl⟩

/-- C2 (evidence of the code bug): `_communicate_with_server` holds no lock,
so the scheduler may order two same-link exchanges as write-A, write-B,
read-B, read-A; then task B's `readline()` takes the front buffered line —
the child's reply to request A — even though the two replies differ. The
spec's serialization guarantee (request A's reply never returned for
request B) fails. -/
theorem unlocked_link_swaps_replies :
    (runExchanges interleaveChild interleaveReqA interleaveReqB
        [.A, .B, .B, .A]).resB = some (interleaveChild interleaveReqA) ∧
    (runExchanges interleaveChild interleaveReqA interleaveReqB
        [.A, .B, .B, .A]).resA = some (interleaveChild interleaveReqB) ∧
    interleaveChild interleaveReqA ≠ interleaveChild interleaveReqB := by
  refine ⟨rfl, rfl, ?_⟩
  simp [interleaveChild, interleaveReqA, interleaveReqB, mkRequest, Json.lookup, List.lookup]

/-- C5: a tool name contained in no registered server's tool list makes
`call_tool` fail with ToolNotFound, and the write trace is empty — no
request reaches any backend. -/
theorem callTool_unknown_tool_no_forward (servers : List MCPServer)
    (toolName arguments : Json)
    (h : ∀ s ∈ servers, serverHasTool toolName s = false) :
    callTool servers toolName arguments = ([], .error (.toolNotFound toolName)) :=
  callTool_eq_of_nomatch servers toolName arguments h

/-- C5 witness: the name `absent` matches neither alpha nor beta. -/
theorem callTool_unknown_tool_no_forward_witness :
    callTool [alphaServer, betaServer] (.str "absent") (.obj [])
      = ([], .error (.toolNotFound (.str "absent"))) := by
  exact callTool_unknown_tool_no_forward [alphaServer, betaServer] (.str "absent") (.obj [])
    (by intro s hs; simp at hs; rcases hs with h | h <;> subst h <;> rfl)

/-- C6 (evidence of the code bug): `shutdown`'s per-child wait is unbounded —
for a child that ignores SIGTERM and errors nowhere, the loop iteration never
returns, so no SIGKILL escalation happens and the registry is never cleared,
contradicting the claimed bounded wait, timeout escalation, and empty
registry. -/
theorem shutdown_hangs_on_sigterm_ignoring_child :
    terminateChild stubbornChild = none ∧
    shutdownServers [("stubborn", stubbornChild)] = none :=
  ⟨rfl, rfl⟩

/-- C4: with the pipes available, the exchange's outcome is exactly the
classification of the one response line read, and that classification is:
LinkClosed precisely on an empty read, ProtocolError carrying the raw line
precisely on a parse failure, RemoteError carrying the backend payload
precisely when the response object has an `error` field, and otherwise the
response's `result` field, null when absent. -/
theorem rpc_exchange_failure_taxonomy (s : MCPServer) (method : String)
    (params? : Option Json) (hpipes : s.pipesOk = true) :
    (communicate s method params?).2
      = handleResponse (s.reply (mkRequest method (paramsOrEmpty params?))) ∧
    ∀ l : Line,
      (handleResponse l = .error .linkClosed ↔ l = .eof) ∧
      (∀ raw msg, handleResponse l = .error (.protocolError raw msg) ↔
          l = .unparsable raw msg) ∧
      (∀ payload, handleResponse l = .error (.remoteError payload) ↔
          ∃ fields, l = .obj fields ∧ fields.lookup "error" = some payload) ∧
      (∀ r, handleResponse l = .ok r ↔
          ∃ fields, l = .obj fields ∧ fields.lookup "error" = none ∧
            r = (fields.lookup "result").getD .null) := by
  constructor
  · simp [communicate, hpipes]
  · intro l
    cases l with
    | eof => simp [handleResponse]
    | unparsable raw msg => simp [handleResponse]
    | obj fields =>
      cases herr : fields.lookup "error" with
      | some payload =>
        simp only [handleResponse, herr]
        refine ⟨by simp, fun raw msg => by simp, fun p => ?_, fun r => ?_⟩
        · constructor
          · intro h
            have hp : payload = p := by simpa using h
            exact ⟨fields, rfl, hp ▸ herr⟩
          · rintro ⟨fields', hfe, hl⟩
            injection hfe with h2
            subst h2
            rw [herr] at hl
            have hp : payload = p := by simpa using hl
            simp [hp]
        · constructor
          · intro h
            exact absurd h (by simp)
          · rintro ⟨fields', hfe, hl, _⟩
            injection hfe with h2
            subst h2
            rw [herr] at hl
            exact Option.noConfusion hl
      | none =>
        simp only [handleResponse, herr]
        refine ⟨by simp, fun raw msg => by simp, fun p => ?_, fun r => ?_⟩
        · constructor
          · intro h
            exact absurd h (by simp)
          · rintro ⟨fields', hfe, hl⟩
            injection hfe with h2
            subst h2
            rw [herr] at hl
            exact Option.noConfusion hl
        · constructor
          · intro h
            have hr : (fields.lookup "result").getD .null = r := by simpa using h
            exact ⟨fields, rfl, herr, hr.symm⟩
          · rintro ⟨fields', hfe, _, hr⟩
            injection hfe with h2
            subst h2
            simp [hr]

/-- C4 witness: against the child whose stdout closed, the exchange fails
with LinkClosed and equals the classification of the read line. -/
theorem rpc_exchange_failure_taxonomy_witness :
    closedServer.pipesOk = true ∧
    (communicate closedServer "tools/list" none).2 = .error .linkClosed ∧
    (communicate closedServer "tools/list" none).2
      = handleResponse (closedServer.reply (mkRequest "tools/list" (paramsOrEmpty none))) := by
  have h := rpc_exchange_failure_taxonomy closedServer "tools/list" none rfl
  refine ⟨rfl, ?_, h.1⟩
  rw [h.1]
  exact ((h.2 (closedServer.reply (mkRequest "tools/list" (paramsOrEmpty none)))).1).mpr rfl

/-- The dict assignment of registration makes the server retrievable under
its name, whether or not the name was present. -/
theorem serverNamed_registryInsert (l : List MCPServer) (s : MCPServer) :
    serverNamed (registryInsert l s) s.name = some s := by
  induction l with
  | nil => simp [registryInsert, serverNamed]
  | cons x rest ih =>
    by_cases hx : (x.name == s.name) = true
    · simp [registryInsert, hx, serverNamed]
    · simp only [registryInsert, hx, Bool.false_eq_true, if_false]
      simpa [serverNamed, List.find?, hx] using ih

/-- C8: when the capability query fails, the spawned server is registered
anyway under its name with an empty tool list, and `start_server`'s tail
still returns it — the failure is not propagated to the caller. -/
theorem startServer_query_failure_registers_empty (registry : List MCPServer)
    (name : String) (pipesOk : Bool) (reply : Json → Line) (e : RpcError)
    (hq : (communicate ⟨name, [], pipesOk, reply⟩ "tools/list" none).2 = .error e) :
    serverNamed (startServerRegister registry name pipesOk reply).1 name
      = some ⟨name, [], pipesOk, reply⟩ ∧
    (startServerRegister registry name pipesOk reply).2
      = ⟨name, [], pipesOk, reply⟩ := by
  have hts : toolsOfQuery ((communicate ⟨name, [], pipesOk, reply⟩ "tools/list" none).2)
      = [] := by rw [hq]; rfl
  constructor
  · have := serverNamed_registryInsert registry ⟨name, [], pipesOk, reply⟩
    simpa [startServerRegister, hts] using this
  · simp [startServerRegister, hts]

/-- C8 witness: a child that closes stdout before replying to `tools/list`
is still registered, with no tools. -/
theorem startServer_query_failure_registers_empty_witness :
    (communicate ⟨"gamma", [], true, fun _ => Line.eof⟩ "tools/list" none).2
      = .error .linkClosed ∧
    serverNamed (startServerRegister [] "gamma" true (fun _ => Line.eof)).1 "gamma"
      = some ⟨"gamma", [], true, fun _ => Line.eof⟩ := by
  refine ⟨rfl, ?_⟩
  exact (startServer_query_failure_registers_empty [] "gamma" true
    (fun _ => Line.eof) .linkClosed rfl).1

/-- On tool records that have a `name` key, the code's entry builder agrees
with the spec-side entry. -/
theorem toolEntry_eq_spec (sn : String) (t : Json)
    (h : (t.lookup "name").isSome = true) :
    toolEntry sn t = .ok (specToolEntry sn t) := by
  cases hn : t.lookup "name" with
  | none => rw [hn] at h; exact Bool.noConfusion h
  | some n => cases hs : t.lookup "input_schema" <;> simp [toolEntry, specToolEntry, hn, hs]

/-- One server's block of the aggregation: mapping the entry builder over
its (named) tools succeeds with the spec-side entries. -/
theorem mapM_toolEntry_block (sn : String) (ts : List Json)
    (h : ∀ t ∈ ts, (t.lookup "name").isSome = true) :
    (ts.map fun t => (sn, t)).mapM (fun p => toolEntry p.1 p.2)
      = .ok (ts.map (specToolEntry sn)) := by
  induction ts with
  | nil => rfl
  | cons t ts ih =>
    rw [List.map_cons, List.mapM_cons, toolEntry_eq_spec sn t (h t (by simp)),
      ih fun t' ht' => h t' (by simp [ht'])]
    rfl

/-- Concatenating two batches that each aggregate successfully aggregates to
the concatenation. -/
theorem mapM_ok_append {ε α β : Type} (f : α → Except ε β)
    (l₁ l₂ : List α) (r₁ r₂ : List β)
    (h₁ : l₁.mapM f = .ok r₁) (h₂ : l₂.mapM f = .ok r₂) :
    (l₁ ++ l₂).mapM f = .ok (r₁ ++ r₂) := by
  rw [List.mapM_append, h₁, h₂]
  rfl

/-- With every registered tool record named, `list_all_tools` returns the
per-server spec-side blocks concatenated in registration order. -/
theorem listAllTools_ok (servers : List MCPServer)
    (hwf : ∀ s ∈ servers, ∀ t ∈ s.tools, (t.lookup "name").isSome = true) :
    listAllTools servers
      = .ok (servers.flatMap fun s => s.tools.map (specToolEntry s.name)) := by
  induction servers with
  | nil => rfl
  | cons s rest ih =>
    have hblock := mapM_toolEntry_block s.name s.tools (hwf s (by simp))
    have hrest := ih fun s' hs' => hwf s' (by simp [hs'])
    unfold listAllTools at hrest ⊢
    rw [List.flatMap_cons, List.flatMap_cons]
    exact mapM_ok_append _ _ _ _ _ hblock hrest

/-- The `server` annotation of a spec-side entry. -/
theorem specToolEntry_lookup_server (sn : String) (t : Json) :
    (specToolEntry sn t).lookup "server" = some (.str sn) := by
  cases hs : t.lookup "input_schema" <;> simp [specToolEntry, Json.lookup, List.lookup, hs]

/-- The `name` field of a spec-side entry. -/
theorem specToolEntry_lookup_name (sn : String) (t : Json) :
    (specToolEntry sn t).lookup "name" = some ((t.lookup "name").getD .null) := by
  cases hs : t.lookup "input_schema" <;> simp [specToolEntry, Json.lookup, List.lookup, hs]

/-- C3: under the registration invariant that every stored tool record has a
`name` key (which `start_server` guarantees), `list_all_tools` returns
exactly the concatenation of the per-server entry lists — registration
order, then per-server tool order — and every returned entry's `server`
annotation names a registered server. -/
theorem listAllTools_is_ordered_concatenation (servers : List MCPServer)
    (hwf : ∀ s ∈ servers, ∀ t ∈ s.tools, (t.lookup "name").isSome = true) :
    listAllTools servers
      = .ok (servers.flatMap fun s => s.tools.map (specToolEntry s.name)) ∧
    ∀ e ∈ servers.flatMap (fun s => s.tools.map (specToolEntry s.name)),
      ∃ s, s ∈ servers ∧ e.lookup "server" = some (.str s.name) := by
  refine ⟨listAllTools_ok servers hwf, ?_⟩
  intro e he
  rw [List.mem_flatMap] at he
  obtain ⟨s, hs, he⟩ := he
  rw [List.mem_map] at he
  obtain ⟨t, _, rfl⟩ := he
  exact ⟨s, hs, specToolEntry_lookup_server s.name t⟩

/-- C3 witness: the alpha-beta registry aggregates to the two annotated
entries, in order. -/
theorem listAllTools_is_ordered_concatenation_witness :
    listAllTools [alphaServer, betaServer]
      = .ok [.obj [("name", .str "echo"), ("description", .str "echo back"),
                   ("server", .str "alpha")],
             .obj [("name", .str "ping"), ("description", .str ""),
                   ("server", .str "beta")]] := by
  have h := (listAllTools_is_ordered_concatenation [alphaServer, betaServer]
    (by
      intro s hs
      simp at hs
      rcases hs with rfl | rfl <;> intro t ht <;>
        simp [alphaServer, betaServer] at ht <;> subst ht <;> rfl)).1
  exact h.trans (by rfl)

/-- A flat-mapped list's count is the sum of the per-block counts. -/
theorem countP_flatMap {α β : Type} (f : α → List β) (p : β → Bool) (l : List α) :
    (l.flatMap f).countP p = (l.map fun a => (f a).countP p).sum := by
  induction l with
  | nil => rfl
  | cons a l ih =>
    rw [List.flatMap_cons, List.countP_append, List.map_cons, List.sum_cons, ih]

/-- Within one server's aggregation block, the entries matching a tool name
are exactly the server's tool records matching it — nothing is deduplicated
or dropped. -/
theorem countP_specToolEntry_block (toolName : Json) (sn : String) (ts : List Json)
    (h : ∀ t ∈ ts, (t.lookup "name").isSome = true) :
    (ts.map (specToolEntry sn)).countP (fun e => e.lookup "name" == some toolName)
      = ts.countP (fun t => t.lookup "name" == some toolName) := by
  induction ts with
  | nil => rfl
  | cons t ts ih =>
    have hpt : ((specToolEntry sn t).lookup "name" == some toolName)
        = (t.lookup "name" == some toolName) := by
      cases hn : t.lookup "name" with
      | none =>
        have hne := h t (by simp)
        rw [hn] at hne
        exact Bool.noConfusion hne
      | some n =>
        rw [specToolEntry_lookup_name, hn]
        rfl
    rw [List.map_cons, List.countP_cons, List.countP_cons, hpt,
      ih fun t' ht' => h t' (by simp [ht'])]

/-- C10: when two registered servers both advertise the same tool name,
`list_all_tools` keeps one entry per advertising tool record — the matching
entries number the sum over all servers, in particular at least two — while
`call_tool` for that name forwards only to whichever matching server occurs
first in registration order. -/
theorem duplicate_tool_name_coexists_first_registered_wins
    (pre mid post : List MCPServer) (s1 s2 : MCPServer) (toolName arguments : Json)
    (hwf : ∀ s ∈ pre ++ s1 :: (mid ++ s2 :: post), ∀ t ∈ s.tools,
      (t.lookup "name").isSome = true)
    (hpre : ∀ s ∈ pre, serverHasTool toolName s = false)
    (h1 : serverHasTool toolName s1 = true)
    (h2 : serverHasTool toolName s2 = true)
    (hpipes : s1.pipesOk = true) :
    (∃ out, listAllTools (pre ++ s1 :: (mid ++ s2 :: post)) = .ok out ∧
       out.countP (fun e => e.lookup "name" == some toolName)
         = ((pre ++ s1 :: (mid ++ s2 :: post)).map
              fun s => s.tools.countP fun t => t.lookup "name" == some toolName).sum ∧
       2 ≤ out.countP (fun e => e.lookup "name" == some toolName)) ∧
    (callTool (pre ++ s1 :: (mid ++ s2 :: post)) toolName arguments).1.map Prod.fst
      = [s1.name] := by
  constructor
  · have hsum : ((pre ++ s1 :: (mid ++ s2 :: post)).flatMap
          fun s => s.tools.map (specToolEntry s.name)).countP
            (fun e => e.lookup "name" == some toolName)
        = ((pre ++ s1 :: (mid ++ s2 :: post)).map
            fun s => s.tools.countP fun t => t.lookup "name" == some toolName).sum := by
      rw [countP_flatMap]
      exact congrArg List.sum (List.map_congr_left fun s hs =>
        countP_specToolEntry_block toolName s.name s.tools (hwf s hs))
    refine ⟨_, listAllTools_ok _ hwf, hsum, ?_⟩
    rw [hsum]
    have hc1 : 0 < s1.tools.countP fun t => t.lookup "name" == some toolName := by
      rw [List.countP_pos_iff]
      rw [serverHasTool, List.any_eq_true] at h1
      exact h1
    have hc2 : 0 < s2.tools.countP fun t => t.lookup "name" == some toolName := by
      rw [List.countP_pos_iff]
      rw [serverHasTool, List.any_eq_true] at h2
      exact h2
    simp only [List.map_append, List.map_cons, List.sum_append, List.sum_cons]
    omega
  · rw [callTool_eq_of_first_match pre (mid ++ s2 :: post) s1 toolName arguments hpre h1]
    simp [communicate, hpipes]

/-- C10 witness: alpha and gamma both advertise `echo`; the catalog keeps
both entries and the call goes to alpha, registered first. -/
theorem duplicate_tool_name_coexists_first_registered_wins_witness :
    (∃ out, listAllTools [alphaServer, gammaEchoServer] = .ok out ∧
       2 ≤ out.countP (fun e => e.lookup "name" == some (.str "echo"))) ∧
    (callTool [alphaServer, gammaEchoServer] (.str "echo") (.obj [])).1.map Prod.fst
      = ["alpha"] := by
  have h := duplicate_tool_name_coexists_first_registered_wins [] [] []
    alphaServer gammaEchoServer (.str "echo") (.obj [])
    (by
      intro s hs
      simp at hs
      rcases hs with rfl | rfl <;> intro t ht <;>
        simp [alphaServer, gammaEchoServer] at ht <;> subst ht <;> rfl)
    (by intro s hs; simp at hs)
    rfl rfl rfl
  obtain ⟨⟨out, hout, _, hcnt⟩, hcall⟩ := h
  exact ⟨⟨out, hout, hcnt⟩, hcall⟩

/-- A successfully gathered batch has one outcome slot per input. -/
theorem mapM_ok_length {ε α β : Type} (f : α → Except ε β) :
    ∀ (l : List α) (r : List β), l.mapM f = .ok r → r.length = l.length := by
  intro l
  induction l with
  | nil =>
    intro r h
    injection h with h'
    rw [← h']
    rfl
  | cons a l ih =>
    intro r h
    rw [List.mapM_cons] at h
    cases hfa : f a with
    | error e =>
      rw [hfa] at h
      exact absurd h (by simp [Bind.bind, Except.bind])
    | ok b =>
      rw [hfa] at h
      cases hml : l.mapM f with
      | error e =>
        rw [hml] at h
        exact absurd h (by simp [Bind.bind, Except.bind])
      | ok bs =>
        rw [hml] at h
        have hr : b :: bs = r := by
          have hh := h
          simp [Bind.bind, Except.bind, Pure.pure, Except.pure] at hh
          exact hh
        rw [← hr]
        simp [ih bs hml]

/-- C7: `start_all_servers` raises the configuration ValueError exactly on a
missing or empty (falsy) `config["mcp"]["servers"]` mapping; on a non-empty
mapping whose entries all build an `MCPServerConfig`, it gathers with
`return_exceptions=True` one outcome slot per configured server, each slot
being that server's own spawn result — so one spawn's exception is captured
in its slot and neither aborts nor blocks the other servers' startups. -/
theorem startAllServers_config_error_and_isolation
    (cfields mfields : List (String × Json))
    (hmcp : (cfields.lookup "mcp").getD (.obj []) = .obj mfields)
    (spawn : String → MCPServerConfig → Except SpawnError MCPServer) :
    (((mfields.lookup "servers").getD .null).pyTruthy = false →
      startAllServers (.obj cfields) spawn = .error .configError) ∧
    (∀ entries parsed,
      (mfields.lookup "servers").getD .null = .obj entries →
      entries.mapM (fun p => (parseServerConfig p.2).map fun c => (p.1, c))
        = .ok parsed →
      entries ≠ [] →
      startAllServers (.obj cfields) spawn
          = .ok (parsed.map fun p => spawn p.1 p.2) ∧
        parsed.length = entries.length) := by
  constructor
  · intro hfalsy
    simp only [startAllServers]
    rw [hmcp]
    simp [hfalsy]
  · intro entries parsed hserv hparse hne
    have htr : (Json.obj entries).pyTruthy = true := by
      simp [Json.pyTruthy, hne]
    refine ⟨?_, mapM_ok_length _ entries parsed hparse⟩
    simp only [startAllServers]
    rw [hmcp]
    simp only [hserv, htr, Bool.not_true, Bool.false_eq_true, if_false, hparse]
    rfl

/-- C7 witness: the empty mapping raises the ConfigError; a one-server config
whose only spawn fails still yields a gathered batch holding that failure in
its single slot. -/
theorem startAllServers_config_error_and_isolation_witness :
    startAllServers emptyServersConfig failingSpawn = .error .configError ∧
    startAllServers oneServerConfig failingSpawn
      = .ok [.error ⟨"a failed"⟩] := by
  constructor
  · exact (startAllServers_config_error_and_isolation
      [("mcp", .obj [("servers", .obj [])])] [("servers", .obj [])]
      rfl failingSpawn).1 rfl
  · have h := (startAllServers_config_error_and_isolation
      [("mcp", .obj [("servers",
         .obj [("a", .obj [("command", .str "stub-server"), ("args", .arr [])])])])]
      [("servers", .obj [("a", .obj [("command", .str "stub-server"), ("args", .arr [])])])]
      rfl failingSpawn).2
      [("a", .obj [("command", .str "stub-server"), ("args", .arr [])])]
      [("a", ⟨.str "stub-server", .arr []⟩)]
      rfl rfl (by simp)
    exact h.1.trans (by rfl)

/-- C9 counterexample: a `tools/call` naming a tool no registered server owns
is answered with status 500 — the ToolNotFound ValueError is caught by the
endpoint's one catch-all — not with a client-error (4xx) status as claimed. -/
theorem missing_tool_gets_server_error_status :
    messageEndpoint [] (.ok [("method", .str "tools/call"),
        ("params", .obj [("name", .str "nosuch")])])
      = (500, .obj [("error", .str "Tool nosuch not found")]) ∧
    ¬ isClientError (messageEndpoint [] (.ok [("method", .str "tools/call"),
        ("params", .obj [("name", .str "nosuch")])])).1 :=
  ⟨rfl, by decide⟩

/-- C9 as amended: an unrecognized `method` is answered 400 with body
error "Unknown method"; a body that fails to parse is answered 500 with the
parse error's message; every `call_tool` failure — the ToolNotFound of a
missing tool included — is answered 500 with the exception's message; and
every non-200 answer's body is a JSON object with an `error` string. -/
theorem messageEndpoint_failure_paths (servers : List MCPServer) :
    (∀ msgFields : List (String × Json),
      (∀ v, msgFields.lookup "method" = some v →
        v ≠ .str "tools/list" ∧ v ≠ .str "tools/call") →
      messageEndpoint servers (.ok msgFields)
        = (400, .obj [("error", .str "Unknown method")])) ∧
    (∀ m, messageEndpoint servers (.error m) = (500, .obj [("error", .str m)])) ∧
    (∀ (msgFields : List (String × Json)) w e,
      msgFields.lookup "method" = some (.str "tools/call") →
      callTool servers
          ((((msgFields.lookup "params").getD (.obj [])).lookup "name").getD .null)
          ((((msgFields.lookup "params").getD (.obj [])).lookup "arguments").getD
            (.obj []))
        = (w, .error e) →
      messageEndpoint servers (.ok msgFields)
        = (500, .obj [("error", .str e.pyMessage)])) ∧
    (∀ body, (messageEndpoint servers body).1 ≠ 200 →
      ∃ m, (messageEndpoint servers body).2 = .obj [("error", .str m)]) := by
  have key : ∀ body, (messageEndpoint servers body).1 = 200 ∨
      ∃ m, (messageEndpoint servers body).2 = .obj [("error", .str m)] := by
    intro body
    cases body with
    | error m => exact .inr ⟨m, rfl⟩
    | ok msgFields =>
      simp only [messageEndpoint]
      split
      · split
        · exact .inl rfl
        · exact .inr ⟨_, rfl⟩
      · split
        · exact .inl rfl
        · exact .inr ⟨_, rfl⟩
      · exact .inr ⟨_, rfl⟩
  refine ⟨?_, fun m => rfl, ?_, ?_⟩
  · intro msgFields hm
    simp only [messageEndpoint]
    split
    next heq => exact absurd rfl ((hm _ heq).1)
    next heq => exact absurd rfl ((hm _ heq).2)
    next => rfl
  · intro msgFields w e hm hcall
    have h2 : (callTool servers
        ((((msgFields.lookup "params").getD (.obj [])).lookup "name").getD .null)
        ((((msgFields.lookup "params").getD (.obj [])).lookup "arguments").getD
          (.obj []))).2 = .error e := by rw [hcall]
    simp only [messageEndpoint, hm, h2]
  · intro body hne
    rcases key body with h | h
    · exact absurd h hne
    · exact h

/-- C9 witness: the unknown method, an unparsable body, and the missing-tool
call each receive the amended statuses and JSON error bodies. -/
theorem messageEndpoint_failure_paths_witness :
    messageEndpoint [] (.ok [("method", .str "bogus")])
      = (400, .obj [("error", .str "Unknown method")]) ∧
    messageEndpoint [] (.error "Expecting value: line 1 column 1 (char 0)")
      = (500, .obj [("error", .str "Expecting value: line 1 column 1 (char 0)")]) ∧
    messageEndpoint [] (.ok [("method", .str "tools/call"),
        ("params", .obj [("name", .str "absent")])])
      = (500, .obj [("error", .str "Tool absent not found")]) := by
  have h := messageEndpoint_failure_paths []
  refine ⟨?_, h.2.1 _, ?_⟩
  · exact h.1 [("method", .str "bogus")]
      (by
        intro v hv
        simp [List.lookup] at hv
        subst hv
        constructor <;> simp)
  · have h3 := h.2.2.1 [("method", .str "tools/call"),
        ("params", .obj [("name", .str "absent")])]
      [] (.toolNotFound (.str "absent")) rfl rfl
    exact h3.trans (by rfl)

end MCPGateway
